import Mathlib

/-!
Verification of the configuration resolution engine of `LMR_config.py`.

The development contains two complementary shallow embeddings of the module:

1. a pure, value-level embedding: each configuration class becomes a pair of
   structures (the class-level defaults and the resolved instance) and each
   `__init__` becomes a Lean function from defaults to instance.  Cross-group
   reads in the source (`core.lmr_path`, `proxies.use_from`,
   `proxies._ncdc.dbversion`, `wrapper.iter_range`, `core.seed`) read the
   *class-level* attributes of the other groups, so the Lean functions take the
   other groups' defaults records as arguments.

2. a heap-based embedding used for the object-identity (aliasing / deep-copy)
   claims: Python lists and dicts become cells of an explicit heap, `list(x)`
   becomes a shallow copy into a fresh cell, `deepcopy(x)` a recursive copy,
   and a plain `self.x = self.x` rebinding keeps the reference to the
   class-level cell.

Python `dict` literals are embedded as insertion-ordered association lists
(declaration order of the literal), with update-in-place / append-at-end
insertion semantics.  Numeric literals (ints and floats) are embedded as
rationals; the module stores them but performs no arithmetic on them, and all
the float literals involved are exactly representable.
-/

namespace LMRConfig

/-- Whether the first character of a string is a slash (Python
`b.startswith('/')`, computed on the character list so that it reduces inside
kernel evaluation). -/
def headIsSlash (s : String) : Bool :=
  match s.data with
  | [] => false
  | c :: _ => c = '/'

/-- Whether the last character of a string is a slash (Python
`path.endswith('/')`). -/
def lastIsSlash (s : String) : Bool :=
  match s.data.getLast? with
  | some c => c = '/'
  | Option.none => false

/-- POSIX `os.path.join`, folded over the remaining components exactly as in
`posixpath.join`: an absolute component discards what was accumulated so far. -/
def osPathJoin (a : String) (ps : List String) : String :=
  ps.foldl
    (fun path b =>
      if headIsSlash b then b
      else if path = "" || lastIsSlash path then path ++ b
      else path ++ "/" ++ b)
    a

/-- Python dict insertion on an insertion-ordered association list: an existing
key is updated in place (keeping its position), a new key is appended. -/
def dictInsert {α β : Type} [DecidableEq α] (k : α) (v : β) :
    List (α × β) → List (α × β)
  | [] => [(k, v)]
  | p :: rest => if p.1 = k then (k, v) :: rest else p :: dictInsert k v rest

/-- Python dict lookup on an association list (keys are unique by the
`dictInsert` invariant, so first match is the entry). -/
def dictGet {α β : Type} [DecidableEq α] : List (α × β) → α → Option β
  | [], _ => Option.none
  | p :: rest, k => if p.1 = k then some p.2 else dictGet rest k

/-- The characters before the first underscore. -/
def beforeUnderscore : List Char → List Char
  | [] => []
  | c :: rest => if c = '_' then [] else c :: beforeUnderscore rest

/-- Python `ptype.split('_', 1)[0]`: the part of the string before the first
underscore (the whole string when it has no underscore). -/
def typeName (s : String) : String :=
  String.mk (beforeUnderscore s.data)

/-- Values appearing in the `simple_filters` mapping of the proxy groups: the
class stores a list of region names and a list of numeric resolutions. -/
inductive FilterVal : Type where
  | strs : List String → FilterVal
  | nums : List ℚ → FilterVal
  deriving DecidableEq

/-! ## Pure embedding: class-level defaults and resolved instances -/

/-- Class-level attributes of `wrapper` (source lines 54-72). -/
structure wrapperDefaults where
  multi_seed : Option (List Int)
  iter_range : Int × Int

/-- The shipped class-level defaults of `wrapper`. -/
def wrapperShipped : wrapperDefaults :=
  { multi_seed := Option.none, iter_range := (0, 0) }

/-- Resolved instance of `wrapper` (source lines 74-76). -/
structure wrapperInst where
  multi_seed : Option (List Int)
  iter_range : Int × Int
  deriving DecidableEq

/-- `wrapper.__init__` (source lines 74-76): rebinds every class attribute. -/
def wrapperInit (d : wrapperDefaults) : wrapperInst :=
  { multi_seed := d.multi_seed, iter_range := d.iter_range }

/-- Class-level attributes of `core` (source lines 119-141). -/
structure coreDefaults where
  nexp : String
  lmr_path : String
  online_reconstruction : Bool
  clean_start : Bool
  use_precalc_ye : Bool
  recon_period : Int × Int
  nens : Int
  seed : Int
  loc_rad : Option ℚ
  datadir_output : String
  archive_dir : String

/-- The shipped class-level defaults of `core`. -/
def coreShipped : coreDefaults :=
  { nexp := "test_ncdc_v0.1.0"
    lmr_path := "/home/disk/kalman3/rtardif/LMR"
    online_reconstruction := false
    clean_start := true
    use_precalc_ye := false
    recon_period := (1800, 2000)
    nens := 100
    seed := 0
    loc_rad := Option.none
    datadir_output := "/home/disk/kalman3/rtardif/LMR/output/wrk"
    archive_dir := "/home/disk/kalman3/rtardif/LMR/output" }

/-- Resolved instance of `core` (source lines 144-160). -/
structure coreInst where
  nexp : String
  lmr_path : String
  online_reconstruction : Bool
  clean_start : Bool
  use_precalc_ye : Bool
  recon_period : Int × Int
  nens : Int
  seed : Int
  loc_rad : Option ℚ
  datadir_output : String
  archive_dir : String
  curr_iter : Int
  deriving DecidableEq

/-- `core.__init__` (source lines 144-160).  The `curr_iter` default argument
is `None`; when it is `None` the resolver reads the *class-level*
`wrapper.iter_range[0]`. -/
def coreInit (w : wrapperDefaults) (d : coreDefaults) (curr_iter : Option Int) :
    coreInst :=
  { nexp := d.nexp
    lmr_path := d.lmr_path
    online_reconstruction := d.online_reconstruction
    clean_start := d.clean_start
    use_precalc_ye := d.use_precalc_ye
    recon_period := d.recon_period
    nens := d.nens
    loc_rad := d.loc_rad
    seed := d.seed
    datadir_output := d.datadir_output
    archive_dir := d.archive_dir
    curr_iter :=
      match curr_iter with
      | Option.none => w.iter_range.1
      | some i => i }

/-! ### The `proxies._pages` group -/

/-- Class-level attributes of `proxies._pages` (source lines 231-285). -/
structure pagesDefaults where
  datadir_proxy : Option String
  datafile_proxy : String
  metafile_proxy : String
  dataformat_proxy : String
  regions : List String
  proxy_resolution : List ℚ
  proxy_timeseries_kind : String
  proxy_order : List String
  proxy_assim2 : List (String × List String)
  proxy_blacklist : List String

/-- The shipped `regions` list shared by the two proxy groups. -/
def regionsShipped : List String :=
  ["Antarctica", "Arctic", "Asia", "Australasia", "Europe",
   "North America", "South America"]

/-- The shipped `proxy_order` list of `proxies._pages`. -/
def pagesOrderShipped : List String :=
  ["Tree ring_Width",
   "Tree ring_Density",
   "Ice core_d18O",
   "Ice core_d2H",
   "Ice core_Accumulation",
   "Coral_d18O",
   "Coral_Luminescence",
   "Lake sediment_All",
   "Marine sediment_All",
   "Speleothem_All"]

/-- The shipped `proxy_assim2` classification table of `proxies._pages`,
in declaration order of the dict literal. -/
def pagesAssim2Shipped : List (String × List String) :=
  [("Tree ring_Width", ["Ring width", "Tree ring width",
                        "Total ring width", "TRW"]),
   ("Tree ring_Density", ["Maximum density", "Minimum density",
                          "Earlywood density", "Latewood density", "MXD"]),
   ("Ice core_d18O", ["d18O"]),
   ("Ice core_d2H", ["d2H"]),
   ("Ice core_Accumulation", ["Accumulation"]),
   ("Coral_d18O", ["d18O"]),
   ("Coral_Luminescence", ["Luminescence"]),
   ("Lake sediment_All", ["Varve thickness", "Thickness",
                          "Mass accumulation rate",
                          "Particle-size distribution",
                          "Organic matter", "X-ray density"]),
   ("Marine sediment_All", ["Mg/Ca"]),
   ("Speleothem_All", ["Lamina thickness"])]

/-- The shipped class-level defaults of `proxies._pages`. -/
def pagesShipped : pagesDefaults :=
  { datadir_proxy := Option.none
    datafile_proxy := "Pages2k_Proxies.df.pckl"
    metafile_proxy := "Pages2k_Metadata.df.pckl"
    dataformat_proxy := "DF"
    regions := regionsShipped
    proxy_resolution := [1]
    proxy_timeseries_kind := "asis"
    proxy_order := pagesOrderShipped
    proxy_assim2 := pagesAssim2Shipped
    proxy_blacklist := [] }

/-- Resolved instance of `proxies._pages` (source lines 289-317), at the level
of field values (object identity is handled by the heap embedding below). -/
structure pagesInst where
  datadir_proxy : String
  datafile_proxy : String
  metafile_proxy : String
  dataformat_proxy : String
  regions : List String
  proxy_resolution : List ℚ
  proxy_timeseries_kind : String
  proxy_order : List String
  proxy_assim2 : List (String × List String)
  proxy_blacklist : List String
  proxy_type_mapping : List ((String × String) × String)
  simple_filters : List (String × FilterVal)
  deriving DecidableEq

/-- The reverse-index construction of `proxies._pages.__init__` (source lines
309-314) and `proxies._ncdc.__init__` (source lines 496-501): for each coarse
key of the classification table, split the key on its first underscore and
bind every (type-prefix, measurement) pair to the key.  The loop iterates the
table with the Python 2 `iteritems()`, whose order is the CPython hash-table
order and is not specified by the program text; this embedding is therefore
parametric in the processing order, which is the order of the input list.
The value-level resolvers below instantiate it with the declaration order of
the dict literal; properties proved for every input list hold for every
iteration order. -/
def proxyTypeMapping (assim2 : List (String × List String)) :
    List ((String × String) × String) :=
  assim2.foldl
    (fun m e =>
      e.2.foldl (fun m2 measure => dictInsert (typeName e.1, measure) e.1 m2) m)
    []

/-- `proxies._pages.__init__` (source lines 289-317).  Reads the class-level
`core.lmr_path` for the base-directory derivation. -/
def pagesInit (cd : coreDefaults) (d : pagesDefaults) : pagesInst :=
  let datadir :=
    match d.datadir_proxy with
    | Option.none => osPathJoin cd.lmr_path ["data", "proxies"]
    | some v => v
  { datadir_proxy := datadir
    datafile_proxy := osPathJoin datadir [d.datafile_proxy]
    metafile_proxy := osPathJoin datadir [d.metafile_proxy]
    dataformat_proxy := d.dataformat_proxy
    regions := d.regions
    proxy_resolution := d.proxy_resolution
    proxy_timeseries_kind := d.proxy_timeseries_kind
    proxy_order := d.proxy_order
    proxy_assim2 := d.proxy_assim2
    proxy_blacklist := d.proxy_blacklist
    proxy_type_mapping := proxyTypeMapping d.proxy_assim2
    simple_filters :=
      [("PAGES 2k Region", FilterVal.strs d.regions),
       ("Resolution (yr)", FilterVal.nums d.proxy_resolution)] }

/-! ### The `proxies._ncdc` group -/

/-- Class-level attributes of `proxies._ncdc` (source lines 368-472). -/
structure ncdcDefaults where
  dbversion : String
  datadir_proxy : Option String
  datafile_proxy : String
  metafile_proxy : String
  dataformat_proxy : String
  regions : List String
  proxy_resolution : List ℚ
  proxy_timeseries_kind : String
  database_filter : List String
  proxy_order : List String
  proxy_assim2 : List (String × List String)
  proxy_blacklist : List String

/-- The class-body string formatting of `'NCDC_%s_Proxies.df.pckl' % dbversion`
(source line 371). -/
def ncdcDatafileTemplate (dbversion : String) : String :=
  "NCDC_" ++ dbversion ++ "_Proxies.df.pckl"

/-- The class-body string formatting of `'NCDC_%s_Metadata.df.pckl' % dbversion`
(source line 372). -/
def ncdcMetafileTemplate (dbversion : String) : String :=
  "NCDC_" ++ dbversion ++ "_Metadata.df.pckl"

/-- The shipped `proxy_order` list of `proxies._ncdc` (only the entries not
commented out in the source). -/
def ncdcOrderShipped : List String :=
  ["Tree Rings_WoodDensity",
   "Tree Rings_WidthPages",
   "Tree Rings_WidthPages2",
   "Tree Rings_Isotopes",
   "Corals and Sclerosponges_d18O",
   "Corals and Sclerosponges_SrCa",
   "Corals and Sclerosponges_Rates",
   "Ice Cores_d18O",
   "Ice Cores_dD",
   "Ice Cores_Accumulation",
   "Ice Cores_MeltFeature",
   "Lake Cores_Varve",
   "Lake Cores_BioMarkers",
   "Lake Cores_GeoChem",
   "Marine Cores_d18O"]

/-- The shipped `proxy_assim2` classification table of `proxies._ncdc`,
in declaration order of the dict literal. -/
def ncdcAssim2Shipped : List (String × List String) :=
  [("Corals and Sclerosponges_d18O",
    ["d18O", "delta18O", "d18o", "d18O_stk", "d18O_int", "d18O_norm",
     "d18o_avg", "d18o_ave", "dO18", "d18O_4"]),
   ("Corals and Sclerosponges_d14C", ["d14C", "d14c", "ac_d14c"]),
   ("Corals and Sclerosponges_d13C",
    ["d13C", "d13c", "d13c_ave", "d13c_ann_ave", "d13C_int"]),
   ("Corals and Sclerosponges_SrCa",
    ["Sr/Ca", "Sr/Ca_norm", "Sr/Ca_anom", "Sr/Ca_int"]),
   ("Corals and Sclerosponges_Sr", ["Sr"]),
   ("Corals and Sclerosponges_BaCa", ["Ba/Ca"]),
   ("Corals and Sclerosponges_CdCa", ["Cd/Ca"]),
   ("Corals and Sclerosponges_MgCa", ["Mg/Ca"]),
   ("Corals and Sclerosponges_UCa", ["U/Ca", "U/Ca_anom"]),
   ("Corals and Sclerosponges_Pb", ["Pb"]),
   ("Corals and Sclerosponges_Rates", ["ext", "calc"]),
   ("Ice Cores_d18O",
    ["d18O", "delta18O", "delta18o", "d18o", "d18o_int", "d18O_int",
     "d18O_norm", "d18o_norm", "dO18", "d18O_anom"]),
   ("Ice Cores_dD", ["deltaD", "delD"]),
   ("Ice Cores_Accumulation", ["accum", "accumu"]),
   ("Ice Cores_MeltFeature", ["MFP"]),
   ("Lake Cores_Varve", ["varve", "varve_thickness", "varve thickness"]),
   ("Lake Cores_BioMarkers", ["Uk37", "TEX86"]),
   ("Lake Cores_GeoChem", ["Sr/Ca", "Mg/Ca", "Cl_cont"]),
   ("Marine Cores_d18O", ["d18O"]),
   ("Speleothems_d18O", ["d18O"]),
   ("Speleothems_d13C", ["d13C"]),
   ("Tree Rings_WidthBreit", ["trsgi_breit"]),
   ("Tree Rings_WidthPages2", ["trsgi"]),
   ("Tree Rings_WidthPages", ["TRW", "ERW", "LRW"]),
   ("Tree Rings_WoodDensity",
    ["max_d", "min_d", "early_d", "earl_d", "density", "late_d", "MXD"]),
   ("Tree Rings_Isotopes", ["d18O"])]

/-- The shipped `proxy_blacklist` of `proxies._ncdc`. -/
def ncdcBlacklistShipped : List String :=
  ["00aust01a", "06cook02a", "06cook03a", "08vene01a",
   "09japa01a", "10guad01a", "99aust01a", "99fpol01a"]

/-- The shipped class-level defaults of `proxies._ncdc`. -/
def ncdcShipped : ncdcDefaults :=
  { dbversion := "v0.1.0"
    datadir_proxy := Option.none
    datafile_proxy := ncdcDatafileTemplate "v0.1.0"
    metafile_proxy := ncdcMetafileTemplate "v0.1.0"
    dataformat_proxy := "DF"
    regions := regionsShipped
    proxy_resolution := [1]
    proxy_timeseries_kind := "asis"
    database_filter := []
    proxy_order := ncdcOrderShipped
    proxy_assim2 := ncdcAssim2Shipped
    proxy_blacklist := ncdcBlacklistShipped }

/-- Resolved instance of `proxies._ncdc` (source lines 476-503), at the level
of field values. -/
structure ncdcInst where
  datadir_proxy : String
  datafile_proxy : String
  metafile_proxy : String
  dataformat_proxy : String
  regions : List String
  proxy_resolution : List ℚ
  proxy_timeseries_kind : String
  database_filter : List String
  proxy_order : List String
  proxy_assim2 : List (String × List String)
  proxy_blacklist : List String
  proxy_type_mapping : List ((String × String) × String)
  simple_filters : List (String × FilterVal)
  deriving DecidableEq

/-- `proxies._ncdc.__init__` (source lines 476-503). -/
def ncdcInit (cd : coreDefaults) (d : ncdcDefaults) : ncdcInst :=
  let datadir :=
    match d.datadir_proxy with
    | Option.none => osPathJoin cd.lmr_path ["data", "proxies"]
    | some v => v
  { datadir_proxy := datadir
    datafile_proxy := osPathJoin datadir [d.datafile_proxy]
    metafile_proxy := osPathJoin datadir [d.metafile_proxy]
    dataformat_proxy := d.dataformat_proxy
    regions := d.regions
    proxy_resolution := d.proxy_resolution
    proxy_timeseries_kind := d.proxy_timeseries_kind
    database_filter := d.database_filter
    proxy_order := d.proxy_order
    proxy_assim2 := d.proxy_assim2
    proxy_blacklist := d.proxy_blacklist
    proxy_type_mapping := proxyTypeMapping d.proxy_assim2
    simple_filters :=
      [("Resolution (yr)", FilterVal.nums d.proxy_resolution)] }

/-! ### The `proxies` group and its keyword-override behavior -/

/-- Class-level attributes of `proxies` itself (source lines 181-183). -/
structure proxiesDefaults where
  use_from : List String
  proxy_frac : ℚ

/-- The shipped class-level defaults of `proxies`. -/
def proxiesShipped : proxiesDefaults :=
  { use_from := ["NCDC"], proxy_frac := 1 }

/-- Resolved instance of `proxies` (source lines 506-511). -/
structure proxiesInst where
  use_from : List String
  proxy_frac : ℚ
  seed : Int
  pages : pagesInst
  ncdc : ncdcInst
  deriving DecidableEq

/-- `proxies.__init__` with no keyword arguments (source lines 506-511):
reads the class-level `core.seed` and resolves the two subgroups. -/
def proxiesInit (cd : coreDefaults) (pD : proxiesDefaults)
    (pagesD : pagesDefaults) (ncdcD : ncdcDefaults) : proxiesInst :=
  { use_from := pD.use_from
    proxy_frac := pD.proxy_frac
    seed := cd.seed
    pages := pagesInit cd pagesD
    ncdc := ncdcInit cd ncdcD }

/-- `proxies.__init__(self, **kwargs)` (source lines 506-511) as called with a
keyword-argument mapping.  The body forwards `kwargs` to
`self._pages(**kwargs)` and `self._ncdc(**kwargs)`, but `_pages.__init__`
(source line 289) and `_ncdc.__init__` (source line 476) declare no parameters
besides `self`, so any non-empty keyword mapping raises a `TypeError`
(unexpected keyword argument) inside the `_pages` call; the values of the
keyword arguments never influence the outcome. -/
def proxiesInitKw (cd : coreDefaults) (pD : proxiesDefaults)
    (pagesD : pagesDefaults) (ncdcD : ncdcDefaults)
    (kwargs : List (String × String)) : Except String proxiesInst :=
  if kwargs.isEmpty then
    Except.ok (proxiesInit cd pD pagesD ncdcD)
  else
    Except.error "TypeError: __init__() got an unexpected keyword argument"

/-! ### The `psm` group and its four calibration variants -/

/-- Class-level attributes of `psm._linear` (source lines 560-587). -/
structure linearDefaults where
  datadir_calib : Option String
  datatag_calib : String
  datafile_calib : String
  dataformat_calib : String
  pre_calib_datafile : Option String
  psm_r_crit : ℚ

/-- The shipped class-level defaults of `psm._linear`. -/
def linearShipped : linearDefaults :=
  { datadir_calib := Option.none
    datatag_calib := "GISTEMP"
    datafile_calib := "gistemp1200_ERSST.nc"
    dataformat_calib := "NCD"
    pre_calib_datafile := Option.none
    psm_r_crit := 0 }

/-- Resolved instance of `psm._linear` (source lines 591-615). -/
structure linearInst where
  datatag_calib : String
  datafile_calib : String
  dataformat_calib : String
  psm_r_crit : ℚ
  datadir_calib : String
  pre_calib_datafile : String
  deriving DecidableEq

/-- The filename expression of `psm._linear.__init__` (source lines 602-610):
when the dash-join of the class-level `proxies.use_from` equals `NCDC`, the
class-level `proxies._ncdc.dbversion` is spliced in after the source names. -/
def linearPsmFilename (use_from : List String) (dbversion : String)
    (datatag_calib : String) : String :=
  if String.intercalate "-" use_from = "NCDC" then
    "PSMs_" ++ String.intercalate "-" use_from ++ "_" ++ dbversion ++ "_" ++
      datatag_calib ++ ".pckl"
  else
    "PSMs_" ++ String.intercalate "-" use_from ++ "_" ++ datatag_calib ++
      ".pckl"

/-- `psm._linear.__init__` (source lines 591-615).  Reads the class-level
`core.lmr_path`, `proxies.use_from` and `proxies._ncdc.dbversion`. -/
def linearInit (cd : coreDefaults) (pD : proxiesDefaults) (nD : ncdcDefaults)
    (d : linearDefaults) : linearInst :=
  { datatag_calib := d.datatag_calib
    datafile_calib := d.datafile_calib
    dataformat_calib := d.dataformat_calib
    psm_r_crit := d.psm_r_crit
    datadir_calib :=
      match d.datadir_calib with
      | Option.none => osPathJoin cd.lmr_path ["data", "analyses"]
      | some v => v
    pre_calib_datafile :=
      match d.pre_calib_datafile with
      | Option.none =>
          osPathJoin cd.lmr_path
            ["PSM", linearPsmFilename pD.use_from nD.dbversion d.datatag_calib]
      | some v => v }

/-- Class-level attributes of `psm._linear_TorP` (source lines 649-685).
`_linear_TorP` subclasses `_linear`; the attributes it does not redeclare
(`datatag_calib`, `datafile_calib`, `pre_calib_datafile`) are looked up on
`_linear`, so they are supplied by a `linearDefaults` record. -/
structure torpDefaults where
  datadir_calib : Option String
  datatag_calib_T : String
  datafile_calib_T : String
  datatag_calib_P : String
  datafile_calib_P : String
  dataformat_calib : String
  pre_calib_datafile_T : Option String
  pre_calib_datafile_P : Option String
  psm_r_crit : ℚ

/-- The shipped class-level defaults of `psm._linear_TorP`. -/
def torpShipped : torpDefaults :=
  { datadir_calib := Option.none
    datatag_calib_T := "GISTEMP"
    datafile_calib_T := "gistemp1200_ERSST.nc"
    datatag_calib_P := "GPCC"
    datafile_calib_P := "GPCC_precip.mon.flux.1x1.v6.nc"
    dataformat_calib := "NCD"
    pre_calib_datafile_T := Option.none
    pre_calib_datafile_P := Option.none
    psm_r_crit := 0 }

/-- Resolved instance of `psm._linear_TorP` (source lines 689-730).  The
`pre_calib_datafile` slot is never assigned by `_linear_TorP.__init__`, so an
attribute read on the resolved instance falls back to the class-level
attribute inherited from `_linear`; the instance therefore carries the
class-level `Option String` value unchanged. -/
structure torpInst where
  datatag_calib_T : String
  datafile_calib_T : String
  datatag_calib_P : String
  datafile_calib_P : String
  dataformat_calib : String
  psm_r_crit : ℚ
  datadir_calib : String
  pre_calib_datafile_T : String
  pre_calib_datafile_P : String
  pre_calib_datafile : Option String
  deriving DecidableEq

/-- `psm._linear_TorP.__init__` (source lines 689-730).  The temperature and
precipitation filenames (source lines 702-713 and 717-728) repeat the
expression of `_linear` with `datatag_calib_T` and `datatag_calib_P`. -/
def torpInit (cd : coreDefaults) (pD : proxiesDefaults) (nD : ncdcDefaults)
    (linD : linearDefaults) (d : torpDefaults) : torpInst :=
  { datatag_calib_T := d.datatag_calib_T
    datafile_calib_T := d.datafile_calib_T
    datatag_calib_P := d.datatag_calib_P
    datafile_calib_P := d.datafile_calib_P
    dataformat_calib := d.dataformat_calib
    psm_r_crit := d.psm_r_crit
    datadir_calib :=
      match d.datadir_calib with
      | Option.none => osPathJoin cd.lmr_path ["data", "analyses"]
      | some v => v
    pre_calib_datafile_T :=
      match d.pre_calib_datafile_T with
      | Option.none =>
          osPathJoin cd.lmr_path
            ["PSM",
             linearPsmFilename pD.use_from nD.dbversion d.datatag_calib_T]
      | some v => v
    pre_calib_datafile_P :=
      match d.pre_calib_datafile_P with
      | Option.none =>
          osPathJoin cd.lmr_path
            ["PSM",
             linearPsmFilename pD.use_from nD.dbversion d.datatag_calib_P]
      | some v => v
    pre_calib_datafile := linD.pre_calib_datafile }

/-- Class-level attributes of `psm._bilinear` (source lines 764-794). -/
structure bilinearDefaults where
  datatag_calib_T : String
  datafile_calib_T : String
  dataformat_calib_T : String
  datatag_calib_P : String
  datafile_calib_P : String
  dataformat_calib_P : String
  datadir_calib : Option String
  pre_calib_datafile : Option String
  psm_r_crit : ℚ

/-- The shipped class-level defaults of `psm._bilinear`. -/
def bilinearShipped : bilinearDefaults :=
  { datatag_calib_T := "GISTEMP"
    datafile_calib_T := "gistemp1200_ERSST.nc"
    dataformat_calib_T := "NCD"
    datatag_calib_P := "DaiPDSI"
    datafile_calib_P := "Dai_pdsi.mon.mean.selfcalibrated_185001-201412.nc"
    dataformat_calib_P := "NCD"
    datadir_calib := Option.none
    pre_calib_datafile := Option.none
    psm_r_crit := 0 }

/-- Resolved instance of `psm._bilinear` (source lines 798-827). -/
structure bilinearInst where
  datatag_calib_T : String
  datafile_calib_T : String
  dataformat_calib_T : String
  datatag_calib_P : String
  datafile_calib_P : String
  dataformat_calib_P : String
  psm_r_crit : ℚ
  datadir_calib : String
  pre_calib_datafile : String
  deriving DecidableEq

/-- The filename expression of `psm._bilinear.__init__` (source lines
813-822): both calibration tags appear, temperature first. -/
def bilinearPsmFilename (use_from : List String) (dbversion : String)
    (datatag_calib_T : String) (datatag_calib_P : String) : String :=
  if String.intercalate "-" use_from = "NCDC" then
    "PSMs_" ++ String.intercalate "-" use_from ++ "_" ++ dbversion ++ "_" ++
      datatag_calib_T ++ "_" ++ datatag_calib_P ++ ".pckl"
  else
    "PSMs_" ++ String.intercalate "-" use_from ++ "_" ++ datatag_calib_T ++
      "_" ++ datatag_calib_P ++ ".pckl"

/-- `psm._bilinear.__init__` (source lines 798-827). -/
def bilinearInit (cd : coreDefaults) (pD : proxiesDefaults)
    (nD : ncdcDefaults) (d : bilinearDefaults) : bilinearInst :=
  { datatag_calib_T := d.datatag_calib_T
    datafile_calib_T := d.datafile_calib_T
    dataformat_calib_T := d.dataformat_calib_T
    datatag_calib_P := d.datatag_calib_P
    datafile_calib_P := d.datafile_calib_P
    dataformat_calib_P := d.dataformat_calib_P
    psm_r_crit := d.psm_r_crit
    datadir_calib :=
      match d.datadir_calib with
      | Option.none => osPathJoin cd.lmr_path ["data", "analyses"]
      | some v => v
    pre_calib_datafile :=
      match d.pre_calib_datafile with
      | Option.none =>
          osPathJoin cd.lmr_path
            ["PSM",
             bilinearPsmFilename pD.use_from nD.dbversion d.datatag_calib_T
               d.datatag_calib_P]
      | some v => v }

/-- Class-level attributes of `psm._h_interp` (source lines 859-865). -/
structure hinterpDefaults where
  radius_influence : Option ℚ
  datadir_obsError : String
  filename_obsError : String
  dataformat_obsError : String
  datafile_obsError : Option String

/-- The shipped class-level defaults of `psm._h_interp`. -/
def hinterpShipped : hinterpDefaults :=
  { radius_influence := some 50
    datadir_obsError := "./"
    filename_obsError := "R.txt"
    dataformat_obsError := "TXT"
    datafile_obsError := Option.none }

/-- Resolved instance of `psm._h_interp` (source lines 869-879). -/
structure hinterpInst where
  radius_influence : Option ℚ
  datadir_obsError : String
  filename_obsError : String
  dataformat_obsError : String
  datafile_obsError : String
  deriving DecidableEq

/-- `psm._h_interp.__init__` (source lines 869-879). -/
def hinterpInit (d : hinterpDefaults) : hinterpInst :=
  { radius_influence := d.radius_influence
    datadir_obsError := d.datadir_obsError
    filename_obsError := d.filename_obsError
    dataformat_obsError := d.dataformat_obsError
    datafile_obsError :=
      match d.datafile_obsError with
      | Option.none => osPathJoin d.datadir_obsError [d.filename_obsError]
      | some v => v }

/-- Class-level attribute of `psm` itself (source line 528). -/
structure psmDefaults where
  use_psm : List (String × String)

/-- The shipped class-level defaults of `psm`. -/
def psmShipped : psmDefaults :=
  { use_psm := [("pages", "linear"), ("NCDC", "linear")] }

/-- Resolved instance of `psm` (source lines 883-888). -/
structure psmInst where
  use_psm : List (String × String)
  linear : linearInst
  linear_TorP : torpInst
  bilinear : bilinearInst
  h_interp : hinterpInst
  deriving DecidableEq

/-- `psm.__init__` with no keyword arguments (source lines 883-888). -/
def psmInit (cd : coreDefaults) (pD : proxiesDefaults) (nD : ncdcDefaults)
    (d : psmDefaults) (linD : linearDefaults) (torpD : torpDefaults)
    (bilD : bilinearDefaults) (hiD : hinterpDefaults) : psmInst :=
  { use_psm := d.use_psm
    linear := linearInit cd pD nD linD
    linear_TorP := torpInit cd pD nD linD torpD
    bilinear := bilinearInit cd pD nD bilD
    h_interp := hinterpInit hiD }

/-- `psm.__init__(self, **kwargs)` (source lines 883-888) as called with a
keyword-argument mapping: `kwargs` is forwarded to `self._linear(**kwargs)`
whose `__init__` (source line 591) declares no parameters besides `self`, so
any non-empty keyword mapping raises a `TypeError`. -/
def psmInitKw (cd : coreDefaults) (pD : proxiesDefaults) (nD : ncdcDefaults)
    (d : psmDefaults) (linD : linearDefaults) (torpD : torpDefaults)
    (bilD : bilinearDefaults) (hiD : hinterpDefaults)
    (kwargs : List (String × String)) : Except String psmInst :=
  if kwargs.isEmpty then
    Except.ok (psmInit cd pD nD d linD torpD bilD hiD)
  else
    Except.error "TypeError: __init__() got an unexpected keyword argument"

/-! ### The `prior` group and the root `Config` composition -/

/-- Class-level attributes of `prior` (source lines 913-970). -/
structure priorDefaults where
  datadir_prior : Option String
  prior_source : String
  datafile_prior : String
  dataformat_prior : String
  psm_required_variables : List String
  state_variables : List String
  detrend : Bool
  state_kind : String

/-- The shipped class-level defaults of `prior`. -/
def priorShipped : priorDefaults :=
  { datadir_prior := Option.none
    prior_source := "ccsm4_last_millenium"
    datafile_prior := "[vardef_template]_CCSM4_past1000_085001-185012.nc"
    dataformat_prior := "NCD"
    psm_required_variables := ["tas_sfc_Amon", "pr_sfc_Amon"]
    state_variables := ["tas_sfc_Amon", "pr_sfc_Amon"]
    detrend := false
    state_kind := "anom" }

/-- Resolved instance of `prior` (source lines 975-989). -/
structure priorInst where
  prior_source : String
  datafile_prior : String
  dataformat_prior : String
  state_variables : List String
  psm_required_variables : List String
  detrend : Bool
  state_kind : String
  seed : Int
  datadir_prior : String
  deriving DecidableEq

/-- `prior.__init__` (source lines 975-989). -/
def priorInit (cd : coreDefaults) (d : priorDefaults) : priorInst :=
  { prior_source := d.prior_source
    datafile_prior := d.datafile_prior
    dataformat_prior := d.dataformat_prior
    state_variables := d.state_variables
    psm_required_variables := d.psm_required_variables
    detrend := d.detrend
    state_kind := d.state_kind
    seed := cd.seed
    datadir_prior :=
      match d.datadir_prior with
      | Option.none =>
          osPathJoin cd.lmr_path ["data", "model", d.prior_source]
      | some v => v }

/-- All class-level defaults of the module, the inputs of a `Config()` call. -/
structure classDefaults where
  wrapperD : wrapperDefaults
  coreD : coreDefaults
  proxiesD : proxiesDefaults
  pagesD : pagesDefaults
  ncdcD : ncdcDefaults
  psmD : psmDefaults
  linearD : linearDefaults
  torpD : torpDefaults
  bilinearD : bilinearDefaults
  hinterpD : hinterpDefaults
  priorD : priorDefaults

/-- The shipped class-level defaults of the whole module. -/
def shipped : classDefaults :=
  { wrapperD := wrapperShipped
    coreD := coreShipped
    proxiesD := proxiesShipped
    pagesD := pagesShipped
    ncdcD := ncdcShipped
    psmD := psmShipped
    linearD := linearShipped
    torpD := torpShipped
    bilinearD := bilinearShipped
    hinterpD := hinterpShipped
    priorD := priorShipped }

/-- The aggregate produced by `Config.__init__` (source lines 992-999). -/
structure configInst where
  wrapperI : wrapperInst
  coreI : coreInst
  proxiesI : proxiesInst
  psmI : psmInst
  priorI : priorInst
  deriving DecidableEq

/-- `Config.__init__` (source lines 992-999): one zero-argument construction
of every group, in declaration order, under the current class-level
defaults. -/
def configInit (D : classDefaults) : configInst :=
  { wrapperI := wrapperInit D.wrapperD
    coreI := coreInit D.wrapperD D.coreD Option.none
    proxiesI := proxiesInit D.coreD D.proxiesD D.pagesD D.ncdcD
    psmI := psmInit D.coreD D.proxiesD D.ncdcD D.psmD D.linearD D.torpD
      D.bilinearD D.hinterpD
    priorI := priorInit D.coreD D.priorD }

/-! ## Heap embedding: object identity of lists and dicts

Python lists and dicts are mutable objects; the embedding gives them explicit
identity as cells of a heap.  `list(x)` allocates a fresh cell holding the
same elements (a shallow copy), `deepcopy(x)` also copies the cells referenced
from inside the object, and a plain `self.x = self.x` rebinding copies only
the reference. -/

/-- Immutable Python values: strings, numbers, `None`, tuples (used as the
keys of the reverse index), and references to heap cells. -/
inductive HVal : Type where
  | str : String → HVal
  | num : ℚ → HVal
  | none : HVal
  | pair : HVal → HVal → HVal
  | ref : Nat → HVal
  deriving DecidableEq

/-- Heap objects: lists and (insertion-ordered) dicts. -/
inductive HObj : Type where
  | list : List HVal → HObj
  | dict : List (HVal × HVal) → HObj
  deriving DecidableEq

/-- The heap is a sequence of allocated cells. -/
abbrev Heap := List HObj

/-- Allocate a fresh cell, returning the new heap and the reference. -/
def halloc (h : Heap) (o : HObj) : Heap × Nat :=
  (h ++ [o], h.length)

/-- Read a cell. -/
def hget (h : Heap) (r : Nat) : HObj :=
  h.getD r (HObj.list [])

/-- Overwrite a cell (a mutation of the referenced object). -/
def hset (h : Heap) (r : Nat) (o : HObj) : Heap :=
  h.set r o

/-- Python `list(x)`: a fresh cell holding the same elements. -/
def listCopy (h : Heap) (r : Nat) : Heap × Nat :=
  halloc h (hget h r)

/-- Python `deepcopy` at the shape of the classification tables (a dict whose
values are references to lists of strings): every referenced cell is copied
into a fresh cell, then the dict itself is copied. -/
def deepcopyDict (h : Heap) (r : Nat) : Heap × Nat :=
  match hget h r with
  | HObj.dict kvs =>
      let res := kvs.foldl
        (fun (acc : Heap × List (HVal × HVal)) kv =>
          match kv.2 with
          | HVal.ref rv =>
              let a2 := halloc acc.1 (hget acc.1 rv)
              (a2.1, acc.2 ++ [(kv.1, HVal.ref a2.2)])
          | v => (acc.1, acc.2 ++ [(kv.1, v)]))
        (h, [])
      halloc res.1 (HObj.dict res.2)
  | o => halloc h o

/-! ### Observation functions (reading values back out of the heap) -/

/-- Observe a cell holding a list of strings. -/
def getStrs (h : Heap) (r : Nat) : List String :=
  match hget h r with
  | HObj.list vs =>
      vs.filterMap (fun v =>
        match v with
        | HVal.str s => some s
        | _ => Option.none)
  | _ => []

/-- Observe a cell holding a list of numbers. -/
def getNums (h : Heap) (r : Nat) : List ℚ :=
  match hget h r with
  | HObj.list vs =>
      vs.filterMap (fun v =>
        match v with
        | HVal.num q => some q
        | _ => Option.none)
  | _ => []

/-- Observe a classification-table cell through its inner list cells. -/
def getAssim2 (h : Heap) (r : Nat) : List (String × List String) :=
  match hget h r with
  | HObj.dict kvs =>
      kvs.filterMap (fun kv =>
        match kv with
        | (HVal.str k, HVal.ref rv) => some (k, getStrs h rv)
        | _ => Option.none)
  | _ => []

/-- Observe a cell holding a string-to-string dict. -/
def getDictSS (h : Heap) (r : Nat) : List (String × String) :=
  match hget h r with
  | HObj.dict kvs =>
      kvs.filterMap (fun kv =>
        match kv with
        | (HVal.str k, HVal.str v) => some (k, v)
        | _ => Option.none)
  | _ => []

/-- Observe a reverse-index cell (keys are pairs of strings). -/
def getMapping (h : Heap) (r : Nat) : List ((String × String) × String) :=
  match hget h r with
  | HObj.dict kvs =>
      kvs.filterMap (fun kv =>
        match kv with
        | (HVal.pair (HVal.str a) (HVal.str b), HVal.str v) =>
            some ((a, b), v)
        | _ => Option.none)
  | _ => []

/-- Observe a `simple_filters` cell, dereferencing its values one level. -/
def getFilters (h : Heap) (r : Nat) : List (String × HObj) :=
  match hget h r with
  | HObj.dict kvs =>
      kvs.filterMap (fun kv =>
        match kv with
        | (HVal.str k, HVal.ref rv) => some (k, hget h rv)
        | _ => Option.none)
  | _ => []

/-! ### Class-level cells -/

/-- References to the class-level container attributes of `proxies._pages`. -/
structure pagesClassRefs where
  regions : Nat
  proxy_resolution : Nat
  proxy_order : Nat
  proxy_assim2 : Nat
  proxy_blacklist : Nat

/-- References to the class-level container attributes of `proxies._ncdc`. -/
structure ncdcClassRefs where
  regions : Nat
  proxy_resolution : Nat
  proxy_order : Nat
  proxy_assim2 : Nat
  database_filter : Nat
  proxy_blacklist : Nat

/-- References to every class-level container attribute of the module. -/
structure classRefs where
  use_from : Nat
  pages : pagesClassRefs
  ncdc : ncdcClassRefs
  use_psm : Nat
  state_variables : Nat
  psm_required_variables : Nat

/-- Allocate a list-of-strings cell. -/
def hallocStrs (h : Heap) (xs : List String) : Heap × Nat :=
  halloc h (HObj.list (xs.map HVal.str))

/-- Allocate a list-of-numbers cell. -/
def hallocNums (h : Heap) (xs : List ℚ) : Heap × Nat :=
  halloc h (HObj.list (xs.map HVal.num))

/-- Allocate a classification table: one list cell per entry value, then the
dict cell referencing them. -/
def hallocAssim2 (h : Heap) (entries : List (String × List String)) :
    Heap × Nat :=
  let res := entries.foldl
    (fun (acc : Heap × List (HVal × HVal)) e =>
      let a2 := hallocStrs acc.1 e.2
      (a2.1, acc.2 ++ [(HVal.str e.1, HVal.ref a2.2)]))
    (h, [])
  halloc res.1 (HObj.dict res.2)

/-- Allocate a string-to-string dict cell. -/
def hallocDictSS (h : Heap) (entries : List (String × String)) : Heap × Nat :=
  halloc h (HObj.dict
    (entries.map (fun e => (HVal.str e.1, HVal.str e.2))))

/-- Build the class-level heap of the module from the shipped defaults: a cell
for each class-level list and dict literal (`proxies.use_from`, the container
attributes of `proxies._pages` and `proxies._ncdc`, `psm.use_psm`,
`prior.state_variables` and `prior.psm_required_variables`). -/
def classHeapInit : Heap × classRefs :=
  let a0 := hallocStrs [] proxiesShipped.use_from
  let a1 := hallocStrs a0.1 regionsShipped
  let a2 := hallocNums a1.1 [1]
  let a3 := hallocStrs a2.1 pagesOrderShipped
  let a4 := hallocAssim2 a3.1 pagesAssim2Shipped
  let a5 := hallocStrs a4.1 []
  let b1 := hallocStrs a5.1 regionsShipped
  let b2 := hallocNums b1.1 [1]
  let b3 := hallocStrs b2.1 ncdcOrderShipped
  let b4 := hallocAssim2 b3.1 ncdcAssim2Shipped
  let b5 := hallocStrs b4.1 []
  let b6 := hallocStrs b5.1 ncdcBlacklistShipped
  let c1 := hallocDictSS b6.1 psmShipped.use_psm
  let c2 := hallocStrs c1.1 priorShipped.state_variables
  let c3 := hallocStrs c2.1 priorShipped.psm_required_variables
  (c3.1,
   { use_from := a0.2
     pages :=
       { regions := a1.2
         proxy_resolution := a2.2
         proxy_order := a3.2
         proxy_assim2 := a4.2
         proxy_blacklist := a5.2 }
     ncdc :=
       { regions := b1.2
         proxy_resolution := b2.2
         proxy_order := b3.2
         proxy_assim2 := b4.2
         database_filter := b5.2
         proxy_blacklist := b6.2 }
     use_psm := c1.2
     state_variables := c2.2
     psm_required_variables := c3.2 })

/-! ### Heap-level resolvers -/

/-- Resolved instance of `proxies._pages` with container fields as
references. -/
structure pagesInstH where
  datadir_proxy : String
  datafile_proxy : String
  metafile_proxy : String
  dataformat_proxy : String
  proxy_timeseries_kind : String
  regions : Nat
  proxy_resolution : Nat
  proxy_order : Nat
  proxy_assim2 : Nat
  proxy_blacklist : Nat
  proxy_type_mapping : Nat
  simple_filters : Nat

/-- The reverse-index loop of source lines 309-314 resolved against the
heap-resident copy of the classification table.  As with `proxyTypeMapping`,
the `iteritems()` order of the source is the unspecified CPython hash order;
here the processing order is the entry order stored in the dict cell (one
fixed order, the same for every resolution within a process, which is all the
aliasing and double-resolution claims depend on). -/
def buildMappingH (h : Heap) (r : Nat) : List (HVal × HVal) :=
  match hget h r with
  | HObj.dict kvs =>
      kvs.foldl
        (fun m kv =>
          match kv with
          | (HVal.str ptype, HVal.ref rl) =>
              match hget h rl with
              | HObj.list ms =>
                  ms.foldl
                    (fun m2 mv =>
                      dictInsert (HVal.pair (HVal.str (typeName ptype)) mv)
                        (HVal.str ptype) m2)
                    m
              | _ => m
          | _ => m)
        []
  | _ => []

/-- Heap-level `proxies._pages.__init__` (source lines 289-317), allocation
for allocation: `regions`, `proxy_order` and `proxy_blacklist` are rebound
through `list(...)` (fresh cells, lines 301, 304, 306), `proxy_assim2`
through `deepcopy` (line 305), while `proxy_resolution` is rebound without a
copy (line 302) and therefore stays aliased to the class-level cell.  The
scalar class attributes are supplied by the `pagesDefaults` record; its
container fields are represented by the cells named in `pagesClassRefs`. -/
def pagesInitH (cd : coreDefaults) (d : pagesDefaults) (c : pagesClassRefs)
    (h : Heap) : Heap × pagesInstH :=
  let datadir :=
    match d.datadir_proxy with
    | Option.none => osPathJoin cd.lmr_path ["data", "proxies"]
    | some v => v
  let a1 := listCopy h c.regions
  let proxy_resolution := c.proxy_resolution
  let a2 := listCopy a1.1 c.proxy_order
  let a3 := deepcopyDict a2.1 c.proxy_assim2
  let a4 := listCopy a3.1 c.proxy_blacklist
  let a5 := halloc a4.1 (HObj.dict (buildMappingH a4.1 a3.2))
  let a6 := halloc a5.1 (HObj.dict
    [(HVal.str "PAGES 2k Region", HVal.ref a1.2),
     (HVal.str "Resolution (yr)", HVal.ref proxy_resolution)])
  (a6.1,
   { datadir_proxy := datadir
     datafile_proxy := osPathJoin datadir [d.datafile_proxy]
     metafile_proxy := osPathJoin datadir [d.metafile_proxy]
     dataformat_proxy := d.dataformat_proxy
     proxy_timeseries_kind := d.proxy_timeseries_kind
     regions := a1.2
     proxy_resolution := proxy_resolution
     proxy_order := a2.2
     proxy_assim2 := a3.2
     proxy_blacklist := a4.2
     proxy_type_mapping := a5.2
     simple_filters := a6.2 })

/-- Resolved instance of `proxies._ncdc` with container fields as
references. -/
structure ncdcInstH where
  datadir_proxy : String
  datafile_proxy : String
  metafile_proxy : String
  dataformat_proxy : String
  proxy_timeseries_kind : String
  regions : Nat
  proxy_resolution : Nat
  proxy_order : Nat
  proxy_assim2 : Nat
  database_filter : Nat
  proxy_blacklist : Nat
  proxy_type_mapping : Nat
  simple_filters : Nat

/-- Heap-level `proxies._ncdc.__init__` (source lines 476-503): `regions`,
`proxy_order`, `database_filter` and `proxy_blacklist` are copied (lines 488,
491, 493, 494), `proxy_assim2` is deep-copied (line 492), and
`proxy_resolution` is rebound without a copy (line 489). -/
def ncdcInitH (cd : coreDefaults) (d : ncdcDefaults) (c : ncdcClassRefs)
    (h : Heap) : Heap × ncdcInstH :=
  let datadir :=
    match d.datadir_proxy with
    | Option.none => osPathJoin cd.lmr_path ["data", "proxies"]
    | some v => v
  let a1 := listCopy h c.regions
  let proxy_resolution := c.proxy_resolution
  let a2 := listCopy a1.1 c.proxy_order
  let a3 := deepcopyDict a2.1 c.proxy_assim2
  let a4 := listCopy a3.1 c.database_filter
  let a5 := listCopy a4.1 c.proxy_blacklist
  let a6 := halloc a5.1 (HObj.dict (buildMappingH a5.1 a3.2))
  let a7 := halloc a6.1 (HObj.dict
    [(HVal.str "Resolution (yr)", HVal.ref proxy_resolution)])
  (a7.1,
   { datadir_proxy := datadir
     datafile_proxy := osPathJoin datadir [d.datafile_proxy]
     metafile_proxy := osPathJoin datadir [d.metafile_proxy]
     dataformat_proxy := d.dataformat_proxy
     proxy_timeseries_kind := d.proxy_timeseries_kind
     regions := a1.2
     proxy_resolution := proxy_resolution
     proxy_order := a2.2
     proxy_assim2 := a3.2
     database_filter := a4.2
     proxy_blacklist := a5.2
     proxy_type_mapping := a6.2
     simple_filters := a7.2 })

/-- Resolved instance of `prior` with container fields as references. -/
structure priorInstH where
  prior_source : String
  datafile_prior : String
  dataformat_prior : String
  state_variables : Nat
  psm_required_variables : Nat
  detrend : Bool
  state_kind : String
  seed : Int
  datadir_prior : String

/-- Heap-level `prior.__init__` (source lines 975-989): `state_variables` is
copied through `list(...)` (line 979) while `psm_required_variables` is
rebound without a copy (line 980) and stays aliased to the class-level
cell. -/
def priorInitH (cd : coreDefaults) (d : priorDefaults) (svRef pvRef : Nat)
    (h : Heap) : Heap × priorInstH :=
  let a1 := listCopy h svRef
  (a1.1,
   { prior_source := d.prior_source
     datafile_prior := d.datafile_prior
     dataformat_prior := d.dataformat_prior
     state_variables := a1.2
     psm_required_variables := pvRef
     detrend := d.detrend
     state_kind := d.state_kind
     seed := cd.seed
     datadir_prior :=
       match d.datadir_prior with
       | Option.none =>
           osPathJoin cd.lmr_path ["data", "model", d.prior_source]
       | some v => v })

/-- Resolved instance of `proxies` with container fields as references:
`use_from` is rebound without a copy (source line 507). -/
structure proxiesInstH where
  use_from : Nat
  proxy_frac : ℚ
  seed : Int
  pages : pagesInstH
  ncdc : ncdcInstH

/-- Resolved instance of `psm` with `use_psm` as a reference (rebound without
a copy, source line 884); the four variant instances hold only immutable
values and reuse the pure embedding. -/
structure psmInstH where
  use_psm : Nat
  linear : linearInst
  linear_TorP : torpInst
  bilinear : bilinearInst
  h_interp : hinterpInst

/-- The heap-level aggregate of `Config.__init__`. -/
structure configInstH where
  wrapperI : wrapperInst
  coreI : coreInst
  proxiesI : proxiesInstH
  psmI : psmInstH
  priorI : priorInstH

/-- Heap-level `Config.__init__` (source lines 992-999): every group is
resolved once, in declaration order, against the current class-level cells.
The psm variants read the class-level `proxies.use_from` list (through its
cell). -/
def configInitH (D : classDefaults) (r : classRefs) (h : Heap) :
    Heap × configInstH :=
  let pagesR := pagesInitH D.coreD D.pagesD r.pages h
  let ncdcR := ncdcInitH D.coreD D.ncdcD r.ncdc pagesR.1
  let ufD : proxiesDefaults :=
    { use_from := getStrs ncdcR.1 r.use_from
      proxy_frac := D.proxiesD.proxy_frac }
  let priorR := priorInitH D.coreD D.priorD r.state_variables
    r.psm_required_variables ncdcR.1
  (priorR.1,
   { wrapperI := wrapperInit D.wrapperD
     coreI := coreInit D.wrapperD D.coreD Option.none
     proxiesI :=
       { use_from := r.use_from
         proxy_frac := D.proxiesD.proxy_frac
         seed := D.coreD.seed
         pages := pagesR.2
         ncdc := ncdcR.2 }
     psmI :=
       { use_psm := r.use_psm
         linear := linearInit D.coreD ufD D.ncdcD D.linearD
         linear_TorP := torpInit D.coreD ufD D.ncdcD D.linearD D.torpD
         bilinear := bilinearInit D.coreD ufD D.ncdcD D.bilinearD
         h_interp := hinterpInit D.hinterpD }
     priorI := priorR.2 })

/-! ### Observation of a resolved aggregate -/

/-- Value-level observation of a heap-level `_pages` instance. -/
structure pagesObs where
  datadir_proxy : String
  datafile_proxy : String
  metafile_proxy : String
  dataformat_proxy : String
  proxy_timeseries_kind : String
  regions : List String
  proxy_resolution : List ℚ
  proxy_order : List String
  proxy_assim2 : List (String × List String)
  proxy_blacklist : List String
  proxy_type_mapping : List ((String × String) × String)
  simple_filters : List (String × HObj)
  deriving DecidableEq

/-- Observe every field of a `_pages` instance through the heap. -/
def pagesObserve (h : Heap) (i : pagesInstH) : pagesObs :=
  { datadir_proxy := i.datadir_proxy
    datafile_proxy := i.datafile_proxy
    metafile_proxy := i.metafile_proxy
    dataformat_proxy := i.dataformat_proxy
    proxy_timeseries_kind := i.proxy_timeseries_kind
    regions := getStrs h i.regions
    proxy_resolution := getNums h i.proxy_resolution
    proxy_order := getStrs h i.proxy_order
    proxy_assim2 := getAssim2 h i.proxy_assim2
    proxy_blacklist := getStrs h i.proxy_blacklist
    proxy_type_mapping := getMapping h i.proxy_type_mapping
    simple_filters := getFilters h i.simple_filters }

/-- Value-level observation of a heap-level `_ncdc` instance. -/
structure ncdcObs where
  datadir_proxy : String
  datafile_proxy : String
  metafile_proxy : String
  dataformat_proxy : String
  proxy_timeseries_kind : String
  regions : List String
  proxy_resolution : List ℚ
  proxy_order : List String
  proxy_assim2 : List (String × List String)
  database_filter : List String
  proxy_blacklist : List String
  proxy_type_mapping : List ((String × String) × String)
  simple_filters : List (String × HObj)
  deriving DecidableEq

/-- Observe every field of an `_ncdc` instance through the heap. -/
def ncdcObserve (h : Heap) (i : ncdcInstH) : ncdcObs :=
  { datadir_proxy := i.datadir_proxy
    datafile_proxy := i.datafile_proxy
    metafile_proxy := i.metafile_proxy
    dataformat_proxy := i.dataformat_proxy
    proxy_timeseries_kind := i.proxy_timeseries_kind
    regions := getStrs h i.regions
    proxy_resolution := getNums h i.proxy_resolution
    proxy_order := getStrs h i.proxy_order
    proxy_assim2 := getAssim2 h i.proxy_assim2
    database_filter := getStrs h i.database_filter
    proxy_blacklist := getStrs h i.proxy_blacklist
    proxy_type_mapping := getMapping h i.proxy_type_mapping
    simple_filters := getFilters h i.simple_filters }

/-- Value-level observation of a heap-level `prior` instance. -/
structure priorObs where
  prior_source : String
  datafile_prior : String
  dataformat_prior : String
  state_variables : List String
  psm_required_variables : List String
  detrend : Bool
  state_kind : String
  seed : Int
  datadir_prior : String
  deriving DecidableEq

/-- Observe every field of a `prior` instance through the heap. -/
def priorObserve (h : Heap) (i : priorInstH) : priorObs :=
  { prior_source := i.prior_source
    datafile_prior := i.datafile_prior
    dataformat_prior := i.dataformat_prior
    state_variables := getStrs h i.state_variables
    psm_required_variables := getStrs h i.psm_required_variables
    detrend := i.detrend
    state_kind := i.state_kind
    seed := i.seed
    datadir_prior := i.datadir_prior }

/-- Value-level observation of a heap-level aggregate: every field of every
group, with references replaced by the observed cell contents. -/
structure configObs where
  wrapperI : wrapperInst
  coreI : coreInst
  use_from : List String
  proxy_frac : ℚ
  proxies_seed : Int
  pages : pagesObs
  ncdc : ncdcObs
  use_psm : List (String × String)
  linear : linearInst
  linear_TorP : torpInst
  bilinear : bilinearInst
  h_interp : hinterpInst
  prior : priorObs
  deriving DecidableEq

/-- Observe every field of a heap-level aggregate. -/
def configObserve (h : Heap) (c : configInstH) : configObs :=
  { wrapperI := c.wrapperI
    coreI := c.coreI
    use_from := getStrs h c.proxiesI.use_from
    proxy_frac := c.proxiesI.proxy_frac
    proxies_seed := c.proxiesI.seed
    pages := pagesObserve h c.proxiesI.pages
    ncdc := ncdcObserve h c.proxiesI.ncdc
    use_psm := getDictSS h c.psmI.use_psm
    linear := c.psmI.linear
    linear_TorP := c.psmI.linear_TorP
    bilinear := c.psmI.bilinear
    h_interp := c.psmI.h_interp
    prior := priorObserve h c.priorI }

/-! ## Spec-side template and concrete resolution experiments -/

/-- Modelled from the spec composite-key rule of section 4.3: calibration
output filenames are
`<prefix>_<source-name(s) joined by dashes>[_<version>]_<calibration-tag(s)
joined by underscores>.<ext>` with prefix `PSMs` and extension `pckl`.  This
definition follows the words of the spec and is the refinement target that
the code-side filename expressions are compared against. -/
def specPsmFilename (sources : List String) (version : Option String)
    (tags : List String) : String :=
  "PSMs_" ++ String.intercalate "-" sources ++
    (match version with
     | some v => "_" ++ v
     | Option.none => "") ++
    "_" ++ String.intercalate "_" tags ++ ".pckl"

/-- The class-level heap of the shipped module. -/
def classHeap : Heap := classHeapInit.1

/-- The references into `classHeap` of the class-level container defaults. -/
def classR : classRefs := classHeapInit.2

/-- First resolution of `proxies._pages` against the shipped class heap. -/
def pagesRun1 : Heap × pagesInstH :=
  pagesInitH coreShipped pagesShipped classR.pages classHeap

/-- Second resolution of `proxies._pages`, after the first. -/
def pagesRun2 : Heap × pagesInstH :=
  pagesInitH coreShipped pagesShipped classR.pages pagesRun1.1

/-- First resolution of `proxies._ncdc`, after the two `_pages`
resolutions. -/
def ncdcRun1 : Heap × ncdcInstH :=
  ncdcInitH coreShipped ncdcShipped classR.ncdc pagesRun2.1

/-- Second resolution of `proxies._ncdc`. -/
def ncdcRun2 : Heap × ncdcInstH :=
  ncdcInitH coreShipped ncdcShipped classR.ncdc ncdcRun1.1

/-- First resolution of `prior`, after the `_pages` and `_ncdc`
resolutions. -/
def priorRun1 : Heap × priorInstH :=
  priorInitH coreShipped priorShipped classR.state_variables
    classR.psm_required_variables ncdcRun2.1

/-- Second resolution of `prior`. -/
def priorRun2 : Heap × priorInstH :=
  priorInitH coreShipped priorShipped classR.state_variables
    classR.psm_required_variables priorRun1.1

/-- The heap after resolving `_pages`, `_ncdc` and `prior` twice each. -/
def twiceHeap : Heap := priorRun2.1

/-- Mutation through the first instance: append the number 2 to its
`proxy_resolution` list (the list becomes `[1, 2]`). -/
def mutResHeap : Heap :=
  hset twiceHeap pagesRun1.2.proxy_resolution
    (HObj.list [HVal.num 1, HVal.num 2])

/-- Mutation through the first instance: overwrite its `regions` list. -/
def mutRegionsHeap : Heap :=
  hset twiceHeap pagesRun1.2.regions (HObj.list [HVal.str "X"])

/-- Mutation through the first instance: overwrite its `proxy_order` list. -/
def mutOrderHeap : Heap :=
  hset twiceHeap pagesRun1.2.proxy_order (HObj.list [HVal.str "X"])

/-- Mutation through the first instance: overwrite its `proxy_blacklist`. -/
def mutBlacklistHeap : Heap :=
  hset twiceHeap pagesRun1.2.proxy_blacklist (HObj.list [HVal.str "X"])

/-- Mutation through the first instance: empty its `proxy_assim2` dict. -/
def mutAssim2Heap : Heap :=
  hset twiceHeap pagesRun1.2.proxy_assim2 (HObj.dict [])

/-- The cell referenced by the first value of a dict cell (used to mutate a
measurement list nested inside a classification table). -/
def firstInnerRef (h : Heap) (r : Nat) : Nat :=
  match hget h r with
  | HObj.dict ((_, HVal.ref rv) :: _) => rv
  | _ => 0

/-- Mutation through the first instance: overwrite the first measurement list
nested inside its `proxy_assim2` copy. -/
def mutAssim2InnerHeap : Heap :=
  hset twiceHeap (firstInnerRef twiceHeap pagesRun1.2.proxy_assim2)
    (HObj.list [HVal.str "X"])

/-- Mutation through the first `prior` instance: overwrite its
`state_variables` list. -/
def mutStateVarsHeap : Heap :=
  hset twiceHeap priorRun1.2.state_variables (HObj.list [HVal.str "X"])

/-- Mutation through the first `_ncdc` instance: append the number 2 to its
`proxy_resolution` list. -/
def mutNcdcResHeap : Heap :=
  hset twiceHeap ncdcRun1.2.proxy_resolution
    (HObj.list [HVal.num 1, HVal.num 2])

/-- Mutation through the first `_ncdc` instance: overwrite its `regions`
list. -/
def mutNcdcRegionsHeap : Heap :=
  hset twiceHeap ncdcRun1.2.regions (HObj.list [HVal.str "X"])

/-- Mutation through the first `_ncdc` instance: overwrite its `proxy_order`
list. -/
def mutNcdcOrderHeap : Heap :=
  hset twiceHeap ncdcRun1.2.proxy_order (HObj.list [HVal.str "X"])

/-- Mutation through the first `_ncdc` instance: overwrite its
`database_filter` list. -/
def mutNcdcDbFilterHeap : Heap :=
  hset twiceHeap ncdcRun1.2.database_filter (HObj.list [HVal.str "X"])

/-- Mutation through the first `_ncdc` instance: overwrite its
`proxy_blacklist` list. -/
def mutNcdcBlacklistHeap : Heap :=
  hset twiceHeap ncdcRun1.2.proxy_blacklist (HObj.list [HVal.str "X"])

/-- Mutation through the first `_ncdc` instance: empty its `proxy_assim2`
dict. -/
def mutNcdcAssim2Heap : Heap :=
  hset twiceHeap ncdcRun1.2.proxy_assim2 (HObj.dict [])

/-- Mutation through the first `_ncdc` instance: overwrite the first
measurement list nested inside its `proxy_assim2` copy. -/
def mutNcdcAssim2InnerHeap : Heap :=
  hset twiceHeap (firstInnerRef twiceHeap ncdcRun1.2.proxy_assim2)
    (HObj.list [HVal.str "X"])

/-- First zero-argument `Config()` construction against the shipped class
heap. -/
def cfgRun1 : Heap × configInstH := configInitH shipped classR classHeap

/-- Second zero-argument `Config()` construction, after the first. -/
def cfgRun2 : Heap × configInstH := configInitH shipped classR cfgRun1.1

/-- The heap after the two `Config()` constructions. -/
def cfgHeap : Heap := cfgRun2.1

/-- Mutation through the first aggregate: append the string `pages` to the
`use_from` list reached from the first aggregate. -/
def cfgMutHeap : Heap :=
  hset cfgHeap cfgRun1.2.proxiesI.use_from
    (HObj.list [HVal.str "NCDC", HVal.str "pages"])

/-! ## Helper lemmas -/

set_option maxRecDepth 40000
set_option maxHeartbeats 4000000

/-- Inserting a key binds it: looking the key up afterwards returns the
inserted value. -/
theorem dictGet_insert_self {α β : Type} [DecidableEq α] (k : α) (v : β)
    (d : List (α × β)) : dictGet (dictInsert k v d) k = some v := by
  induction d with
  | nil => simp [dictInsert, dictGet]
  | cons p rest ih =>
      by_cases h : p.1 = k
      · simp [dictInsert, dictGet, h]
      · simp only [dictInsert, if_neg h, dictGet]
        exact ih

/-- Inserting one key leaves lookups of other keys unchanged. -/
theorem dictGet_insert_ne {α β : Type} [DecidableEq α] (k k2 : α) (v : β)
    (d : List (α × β)) (h : k2 ≠ k) :
    dictGet (dictInsert k v d) k2 = dictGet d k2 := by
  have hk : ¬(k = k2) := fun hh => h hh.symm
  induction d with
  | nil => simp [dictInsert, dictGet, hk]
  | cons p rest ih =>
      by_cases hp : p.1 = k
      · simp only [dictInsert, if_pos hp, dictGet]
        rw [if_neg hk, if_neg (hp ▸ hk)]
      · simp only [dictInsert, if_neg hp, dictGet]
        rw [ih]

/-- The inner loop of the reverse-index builder does not disturb lookups of
pairs it never inserts. -/
theorem innerFold_preserve (tn2 k2 tn m : String)
    (xs : List String) (m0 : List ((String × String) × String))
    (h : ∀ x ∈ xs, (tn2, x) ≠ (tn, m)) :
    dictGet (xs.foldl (fun acc x => dictInsert (tn2, x) k2 acc) m0) (tn, m) =
      dictGet m0 (tn, m) := by
  induction xs generalizing m0 with
  | nil => rfl
  | cons x rest ih =>
      rw [List.foldl_cons, ih _ (fun y hy => h y (List.mem_cons_of_mem _ hy)),
        dictGet_insert_ne _ _ _ _ (Ne.symm (h x (List.mem_cons_self _ _)))]

/-- After the inner loop of the reverse-index builder runs for a coarse key,
every measurement of that coarse key looks up to it. -/
theorem innerFold_get (tn k2 : String) (xs : List String) (m : String)
    (m0 : List ((String × String) × String)) (hm : m ∈ xs) :
    dictGet (xs.foldl (fun acc x => dictInsert (tn, x) k2 acc) m0) (tn, m) =
      some k2 := by
  induction xs generalizing m0 with
  | nil => cases hm
  | cons x rest ih =>
      by_cases hr : m ∈ rest
      · rw [List.foldl_cons, ih _ hr]
      · have hx : m = x := by
          rcases List.mem_cons.mp hm with h1 | h2
          · exact h1
          · exact absurd h2 hr
        subst hx
        rw [List.foldl_cons,
          innerFold_preserve _ _ _ _ _ _
            (fun y hy hEq => hr (by cases hEq; exact hy)),
          dictGet_insert_self]

/-- Coarse keys that never generate a given (type-prefix, measurement) pair
do not disturb its binding in the reverse index. -/
theorem outerFold_preserve (t2 : List (String × List String)) (tn m : String)
    (m0 : List ((String × String) × String))
    (h : ∀ e ∈ t2, typeName e.1 = tn → m ∉ e.2) :
    dictGet
      (t2.foldl
        (fun mm e =>
          e.2.foldl
            (fun m2 measure => dictInsert (typeName e.1, measure) e.1 m2) mm)
        m0)
      (tn, m) = dictGet m0 (tn, m) := by
  induction t2 generalizing m0 with
  | nil => rfl
  | cons e rest ih =>
      rw [List.foldl_cons, ih _ (fun y hy => h y (List.mem_cons_of_mem _ hy)),
        innerFold_preserve]
      intro x hx hEq
      injection hEq with h1 h2
      exact h e (List.mem_cons_self _ _) h1 (h2 ▸ hx)

/-- Last writer wins in the reverse index, for every processing order: in
whatever order the coarse keys are handed to the builder, the entry of a
coarse key survives when no later-processed coarse key generates the same
(type-prefix, measurement) pair. -/
theorem proxyTypeMapping_last_writer (t1 : List (String × List String))
    (key : String) (ms : List String) (t2 : List (String × List String))
    (m : String) (hm : m ∈ ms)
    (h2 : ∀ e ∈ t2, typeName e.1 = typeName key → m ∉ e.2) :
    dictGet (proxyTypeMapping (t1 ++ (key, ms) :: t2)) (typeName key, m) =
      some key := by
  unfold proxyTypeMapping
  rw [List.foldl_append, List.foldl_cons, outerFold_preserve _ _ _ _ h2,
    innerFold_get _ _ _ _ _ hm]

/-- Intercalating a one-element list is the element itself. -/
theorem intercalate_singleton (s a : String) :
    String.intercalate s [a] = a := rfl

/-- Intercalating a two-element list joins once. -/
theorem intercalate_pair (s a b : String) :
    String.intercalate s [a, b] = a ++ s ++ b := rfl

/-- The filename expression of `psm._linear.__init__` refines the spec-side
template with a single calibration tag. -/
theorem linearPsmFilename_spec (uf : List String) (dbv tag : String) :
    linearPsmFilename uf dbv tag =
      specPsmFilename uf
        (if String.intercalate "-" uf = "NCDC" then some dbv else Option.none)
        [tag] := by
  by_cases h : String.intercalate "-" uf = "NCDC"
  · simp only [linearPsmFilename, specPsmFilename, h, if_pos,
      intercalate_singleton, String.append_assoc]
  · simp [linearPsmFilename, specPsmFilename, h, intercalate_singleton,
      String.append_assoc, String.append_empty]

/-- The filename expression of `psm._bilinear.__init__` refines the spec-side
template with the two calibration tags in order. -/
theorem bilinearPsmFilename_spec (uf : List String) (dbv tagT tagP : String) :
    bilinearPsmFilename uf dbv tagT tagP =
      specPsmFilename uf
        (if String.intercalate "-" uf = "NCDC" then some dbv else Option.none)
        [tagT, tagP] := by
  by_cases h : String.intercalate "-" uf = "NCDC"
  · simp only [bilinearPsmFilename, specPsmFilename, h, if_pos,
      intercalate_pair, String.append_assoc]
  · simp [bilinearPsmFilename, specPsmFilename, h, intercalate_pair,
      String.append_assoc, String.append_empty]

/-! ## Claim theorems -/

/-- C1 (counterexample): resolving the `proxies` group with a keyword
override that names the declared field `datadir_proxy` does not succeed with
the supplied value and does not drop the key; it raises a `TypeError`,
because `_pages.__init__` declares no keyword parameters. -/
theorem C1_counterexample :
    proxiesInitKw coreShipped proxiesShipped pagesShipped ncdcShipped
      [("datadir_proxy", "/tmp/proxies")] =
    Except.error "TypeError: __init__() got an unexpected keyword argument" :=
  rfl

/-- C1 (amended): group resolution with keyword overrides succeeds exactly
when the override set is empty, in which case it yields the instance resolved
from the class-level defaults; any non-empty keyword override set, whether or
not its keys name declared fields, raises a `TypeError` instead of being
applied or silently dropped. -/
theorem C1_override_keywords_rejected (cd : coreDefaults)
    (pD : proxiesDefaults) (pgD : pagesDefaults) (nD : ncdcDefaults)
    (psD : psmDefaults) (linD : linearDefaults) (tD : torpDefaults)
    (bD : bilinearDefaults) (hiD : hinterpDefaults)
    (kwargs : List (String × String)) :
    (proxiesInitKw cd pD pgD nD kwargs =
        Except.ok (proxiesInit cd pD pgD nD) ↔ kwargs = []) ∧
    (psmInitKw cd pD nD psD linD tD bD hiD kwargs =
        Except.ok (psmInit cd pD nD psD linD tD bD hiD) ↔ kwargs = []) := by
  cases kwargs <;> simp [proxiesInitKw, psmInitKw]

/-- C2 (counterexample): the `proxy_resolution` field of a resolved proxy
group instance is not an independent copy of the class-level default, in
either proxy group.  Both resolved `_pages` instances and both resolved
`_ncdc` instances carry the very reference of the class-level cell of their
group, and mutating the list through the first instance (appending the
number 2) changes what the second instance and the class-level default
observe, contradicting the claim that such a mutation leaves them
unchanged. -/
theorem C2_counterexample :
    pagesRun1.2.proxy_resolution = classR.pages.proxy_resolution ∧
    pagesRun2.2.proxy_resolution = classR.pages.proxy_resolution ∧
    getNums twiceHeap pagesRun2.2.proxy_resolution = [1] ∧
    getNums mutResHeap pagesRun2.2.proxy_resolution = [1, 2] ∧
    getNums mutResHeap classR.pages.proxy_resolution = [1, 2] ∧
    ncdcRun1.2.proxy_resolution = classR.ncdc.proxy_resolution ∧
    ncdcRun2.2.proxy_resolution = classR.ncdc.proxy_resolution ∧
    getNums twiceHeap ncdcRun2.2.proxy_resolution = [1] ∧
    getNums mutNcdcResHeap ncdcRun2.2.proxy_resolution = [1, 2] ∧
    getNums mutNcdcResHeap classR.ncdc.proxy_resolution = [1, 2] := by
  decide

/-- C2 (amended): resolving `_pages`, `_ncdc` and `prior` twice each with no
overrides yields instances with equal field values, and the fields rebound
through `list(...)` or `deepcopy` (`regions`, `proxy_order`,
`proxy_blacklist`, `proxy_assim2` including its nested measurement lists, the
`database_filter` of `_ncdc`, and `state_variables`) are independent copies:
mutating them through one instance leaves both the other instance and the
class-level default unchanged.  The fields rebound without a copy
(`proxy_resolution` in both proxy groups and `psm_required_variables` in
`prior`) stay aliased to the class-level cells. -/
theorem C2_copy_on_resolve_amended :
    pagesRun1.2.datadir_proxy = pagesRun2.2.datadir_proxy ∧
    pagesRun1.2.datafile_proxy = pagesRun2.2.datafile_proxy ∧
    pagesRun1.2.metafile_proxy = pagesRun2.2.metafile_proxy ∧
    pagesRun1.2.dataformat_proxy = pagesRun2.2.dataformat_proxy ∧
    pagesRun1.2.proxy_timeseries_kind = pagesRun2.2.proxy_timeseries_kind ∧
    getStrs twiceHeap pagesRun1.2.regions =
      getStrs twiceHeap pagesRun2.2.regions ∧
    getNums twiceHeap pagesRun1.2.proxy_resolution =
      getNums twiceHeap pagesRun2.2.proxy_resolution ∧
    getStrs twiceHeap pagesRun1.2.proxy_order =
      getStrs twiceHeap pagesRun2.2.proxy_order ∧
    getAssim2 twiceHeap pagesRun1.2.proxy_assim2 =
      getAssim2 twiceHeap pagesRun2.2.proxy_assim2 ∧
    getStrs twiceHeap pagesRun1.2.proxy_blacklist =
      getStrs twiceHeap pagesRun2.2.proxy_blacklist ∧
    getMapping twiceHeap pagesRun1.2.proxy_type_mapping =
      getMapping twiceHeap pagesRun2.2.proxy_type_mapping ∧
    getFilters twiceHeap pagesRun1.2.simple_filters =
      getFilters twiceHeap pagesRun2.2.simple_filters ∧
    getStrs twiceHeap priorRun1.2.state_variables =
      getStrs twiceHeap priorRun2.2.state_variables ∧
    getStrs twiceHeap priorRun1.2.psm_required_variables =
      getStrs twiceHeap priorRun2.2.psm_required_variables ∧
    pagesRun1.2.regions ≠ pagesRun2.2.regions ∧
    getStrs mutRegionsHeap pagesRun2.2.regions = regionsShipped ∧
    getStrs mutRegionsHeap classR.pages.regions = regionsShipped ∧
    getStrs mutOrderHeap pagesRun2.2.proxy_order = pagesOrderShipped ∧
    getStrs mutOrderHeap classR.pages.proxy_order = pagesOrderShipped ∧
    getStrs mutBlacklistHeap pagesRun2.2.proxy_blacklist = [] ∧
    getStrs mutBlacklistHeap classR.pages.proxy_blacklist = [] ∧
    getAssim2 mutAssim2Heap pagesRun2.2.proxy_assim2 = pagesAssim2Shipped ∧
    getAssim2 mutAssim2Heap classR.pages.proxy_assim2 = pagesAssim2Shipped ∧
    getAssim2 mutAssim2InnerHeap pagesRun2.2.proxy_assim2 =
      pagesAssim2Shipped ∧
    getAssim2 mutAssim2InnerHeap classR.pages.proxy_assim2 =
      pagesAssim2Shipped ∧
    getStrs mutStateVarsHeap priorRun2.2.state_variables =
      priorShipped.state_variables ∧
    getStrs mutStateVarsHeap classR.state_variables =
      priorShipped.state_variables ∧
    priorRun1.2.psm_required_variables = classR.psm_required_variables ∧
    priorRun2.2.psm_required_variables = classR.psm_required_variables ∧
    ncdcRun1.2.datadir_proxy = ncdcRun2.2.datadir_proxy ∧
    ncdcRun1.2.datafile_proxy = ncdcRun2.2.datafile_proxy ∧
    ncdcRun1.2.metafile_proxy = ncdcRun2.2.metafile_proxy ∧
    ncdcRun1.2.dataformat_proxy = ncdcRun2.2.dataformat_proxy ∧
    ncdcRun1.2.proxy_timeseries_kind = ncdcRun2.2.proxy_timeseries_kind ∧
    getStrs twiceHeap ncdcRun1.2.regions =
      getStrs twiceHeap ncdcRun2.2.regions ∧
    getNums twiceHeap ncdcRun1.2.proxy_resolution =
      getNums twiceHeap ncdcRun2.2.proxy_resolution ∧
    getStrs twiceHeap ncdcRun1.2.proxy_order =
      getStrs twiceHeap ncdcRun2.2.proxy_order ∧
    getAssim2 twiceHeap ncdcRun1.2.proxy_assim2 =
      getAssim2 twiceHeap ncdcRun2.2.proxy_assim2 ∧
    getStrs twiceHeap ncdcRun1.2.database_filter =
      getStrs twiceHeap ncdcRun2.2.database_filter ∧
    getStrs twiceHeap ncdcRun1.2.proxy_blacklist =
      getStrs twiceHeap ncdcRun2.2.proxy_blacklist ∧
    getMapping twiceHeap ncdcRun1.2.proxy_type_mapping =
      getMapping twiceHeap ncdcRun2.2.proxy_type_mapping ∧
    getFilters twiceHeap ncdcRun1.2.simple_filters =
      getFilters twiceHeap ncdcRun2.2.simple_filters ∧
    ncdcRun1.2.regions ≠ ncdcRun2.2.regions ∧
    getStrs mutNcdcRegionsHeap ncdcRun2.2.regions = regionsShipped ∧
    getStrs mutNcdcRegionsHeap classR.ncdc.regions = regionsShipped ∧
    getStrs mutNcdcOrderHeap ncdcRun2.2.proxy_order = ncdcOrderShipped ∧
    getStrs mutNcdcOrderHeap classR.ncdc.proxy_order = ncdcOrderShipped ∧
    getStrs mutNcdcDbFilterHeap ncdcRun2.2.database_filter = [] ∧
    getStrs mutNcdcDbFilterHeap classR.ncdc.database_filter = [] ∧
    getStrs mutNcdcBlacklistHeap ncdcRun2.2.proxy_blacklist =
      ncdcBlacklistShipped ∧
    getStrs mutNcdcBlacklistHeap classR.ncdc.proxy_blacklist =
      ncdcBlacklistShipped ∧
    getAssim2 mutNcdcAssim2Heap ncdcRun2.2.proxy_assim2 =
      ncdcAssim2Shipped ∧
    getAssim2 mutNcdcAssim2Heap classR.ncdc.proxy_assim2 =
      ncdcAssim2Shipped ∧
    getAssim2 mutNcdcAssim2InnerHeap ncdcRun2.2.proxy_assim2 =
      ncdcAssim2Shipped ∧
    getAssim2 mutNcdcAssim2InnerHeap classR.ncdc.proxy_assim2 =
      ncdcAssim2Shipped := by
  repeat' apply And.intro
  all_goals decide

/-- C3: with `pre_calib_datafile` unset, `use_from` equal to the one-element
list `NCDC`, dataset version `v0.1.0` and calibration tag `GISTEMP`, the
derived calibration-output filename is `PSMs_NCDC_v0.1.0_GISTEMP.pckl`, and
the resolved `pre_calib_datafile` is the root path joined with `PSM` and that
filename. -/
theorem C3_linear_precalib_filename (lmr : String) :
    linearPsmFilename ["NCDC"] "v0.1.0" "GISTEMP" =
      "PSMs_NCDC_v0.1.0_GISTEMP.pckl" ∧
    (linearInit { coreShipped with lmr_path := lmr }
        { proxiesShipped with use_from := ["NCDC"] }
        { ncdcShipped with dbversion := "v0.1.0" }
        { linearShipped with
            datatag_calib := "GISTEMP"
            pre_calib_datafile := Option.none }).pre_calib_datafile =
      osPathJoin lmr ["PSM", "PSMs_NCDC_v0.1.0_GISTEMP.pckl"] :=
  ⟨rfl, rfl⟩

/-- Order insensitivity of the collision-free example table of the spec:
under both possible processing orders of its two entries, the reverse index
binds `(A, p)` to `A_x`, `(A, q)` to `A_x` and `(B, q)` to `B_y`.  The
declaration-order tie-break itself is not a property of the program (the
source iterates the table in the unspecified CPython hash order), so it is
not asserted here; this fact covers only what holds under every order. -/
theorem reverseIndex_example_order_insensitive :
    ∀ t ∈ [[("A_x", ["p", "q"]), ("B_y", ["q"])],
           [("B_y", ["q"]), ("A_x", ["p", "q"])]],
      dictGet (proxyTypeMapping t) ("A", "p") = some "A_x" ∧
      dictGet (proxyTypeMapping t) ("A", "q") = some "A_x" ∧
      dictGet (proxyTypeMapping t) ("B", "q") = some "B_y" := by
  decide

/-- C5: with the base directory unset and root path `/data/LMR`, both proxy
groups resolve their base directory to `/data/LMR/data/proxies` and their
data-file path to the base directory joined with the fixed filename
template of the group. -/
theorem C5_proxy_path_derivation :
    (pagesInit { coreShipped with lmr_path := "/data/LMR" }
        pagesShipped).datadir_proxy = "/data/LMR/data/proxies" ∧
    (pagesInit { coreShipped with lmr_path := "/data/LMR" }
        pagesShipped).datafile_proxy =
      osPathJoin "/data/LMR/data/proxies" [pagesShipped.datafile_proxy] ∧
    (ncdcInit { coreShipped with lmr_path := "/data/LMR" }
        ncdcShipped).datadir_proxy = "/data/LMR/data/proxies" ∧
    (ncdcInit { coreShipped with lmr_path := "/data/LMR" }
        ncdcShipped).datafile_proxy =
      osPathJoin "/data/LMR/data/proxies" [ncdcShipped.datafile_proxy] :=
  ⟨rfl, rfl, rfl, rfl⟩

/-- C6 (counterexample): supplying the explicit non-null value `custom.pckl`
for the data-file field of `_pages` does not make the resolved instance carry
it verbatim; the resolver always joins the data-file name onto the resolved
base directory. -/
theorem C6_counterexample :
    (pagesInit coreShipped
        { pagesShipped with datafile_proxy := "custom.pckl" }).datafile_proxy =
      "/home/disk/kalman3/rtardif/LMR/data/proxies/custom.pckl" ∧
    (pagesInit coreShipped
        { pagesShipped with datafile_proxy := "custom.pckl" }).datafile_proxy ≠
      "custom.pckl" :=
  ⟨rfl, by decide⟩

/-- C6 (amended): for every null-sentinel derived-path field (the proxy base
directories, the calibration base directories, the pre-calibration cache
paths, the prior data directory and the observation-error data file),
supplying an explicit non-null value makes the resolved instance carry that
value verbatim with no derivation applied; the data-file and metadata-file
name fields, by contrast, are always joined onto the base directory. -/
theorem C6_explicit_override_verbatim (v : String) (cd : coreDefaults)
    (pD : proxiesDefaults) (nD : ncdcDefaults) (pgD : pagesDefaults)
    (ncD : ncdcDefaults) (linD : linearDefaults) (tD : torpDefaults)
    (bD : bilinearDefaults) (hiD : hinterpDefaults) (prD : priorDefaults) :
    (pagesInit cd { pgD with datadir_proxy := some v }).datadir_proxy = v ∧
    (ncdcInit cd { ncD with datadir_proxy := some v }).datadir_proxy = v ∧
    (linearInit cd pD nD
        { linD with datadir_calib := some v }).datadir_calib = v ∧
    (linearInit cd pD nD
        { linD with pre_calib_datafile := some v }).pre_calib_datafile = v ∧
    (torpInit cd pD nD linD
        { tD with datadir_calib := some v }).datadir_calib = v ∧
    (torpInit cd pD nD linD
        { tD with pre_calib_datafile_T := some v }).pre_calib_datafile_T = v ∧
    (torpInit cd pD nD linD
        { tD with pre_calib_datafile_P := some v }).pre_calib_datafile_P = v ∧
    (bilinearInit cd pD nD
        { bD with datadir_calib := some v }).datadir_calib = v ∧
    (bilinearInit cd pD nD
        { bD with pre_calib_datafile := some v }).pre_calib_datafile = v ∧
    (hinterpInit
        { hiD with datafile_obsError := some v }).datafile_obsError = v ∧
    (priorInit cd { prD with datadir_prior := some v }).datadir_prior = v :=
  ⟨rfl, rfl, rfl, rfl, rfl, rfl, rfl, rfl, rfl, rfl, rfl⟩

/-- C7: all four calibration variants (single-variable, the temperature and
precipitation paths of the dual-variable variant, and the bivariate variant)
derive their output filename, when the pre-calibration field is unset, by the
same join order: prefix `PSMs`, the proxy source names joined by dashes, the
dataset version of the selected source when the dash-join of the sources
equals `NCDC`, the calibration tag or tags joined by underscores, and the
extension `pckl`. -/
theorem C7_calibration_filename_template (lmr : String) (uf : List String)
    (dbv tag tagT tagP : String) :
    (linearInit { coreShipped with lmr_path := lmr }
        { proxiesShipped with use_from := uf }
        { ncdcShipped with dbversion := dbv }
        { linearShipped with
            datatag_calib := tag
            pre_calib_datafile := Option.none }).pre_calib_datafile =
      osPathJoin lmr
        ["PSM",
         specPsmFilename uf
           (if String.intercalate "-" uf = "NCDC" then some dbv
            else Option.none) [tag]] ∧
    (torpInit { coreShipped with lmr_path := lmr }
        { proxiesShipped with use_from := uf }
        { ncdcShipped with dbversion := dbv } linearShipped
        { torpShipped with
            datatag_calib_T := tagT
            datatag_calib_P := tagP
            pre_calib_datafile_T := Option.none
            pre_calib_datafile_P := Option.none }).pre_calib_datafile_T =
      osPathJoin lmr
        ["PSM",
         specPsmFilename uf
           (if String.intercalate "-" uf = "NCDC" then some dbv
            else Option.none) [tagT]] ∧
    (torpInit { coreShipped with lmr_path := lmr }
        { proxiesShipped with use_from := uf }
        { ncdcShipped with dbversion := dbv } linearShipped
        { torpShipped with
            datatag_calib_T := tagT
            datatag_calib_P := tagP
            pre_calib_datafile_T := Option.none
            pre_calib_datafile_P := Option.none }).pre_calib_datafile_P =
      osPathJoin lmr
        ["PSM",
         specPsmFilename uf
           (if String.intercalate "-" uf = "NCDC" then some dbv
            else Option.none) [tagP]] ∧
    (bilinearInit { coreShipped with lmr_path := lmr }
        { proxiesShipped with use_from := uf }
        { ncdcShipped with dbversion := dbv }
        { bilinearShipped with
            datatag_calib_T := tagT
            datatag_calib_P := tagP
            pre_calib_datafile := Option.none }).pre_calib_datafile =
      osPathJoin lmr
        ["PSM",
         specPsmFilename uf
           (if String.intercalate "-" uf = "NCDC" then some dbv
            else Option.none) [tagT, tagP]] := by
  refine ⟨?_, ?_, ?_, ?_⟩ <;>
    simp [linearInit, torpInit, bilinearInit, linearPsmFilename_spec,
      bilinearPsmFilename_spec]

/-- C8 (counterexample): the two aggregates produced by composing the Root
Configuration twice are not independent.  Both reference the very class-level
`use_from` cell, and a mutation through the first aggregate (appending the
string `pages`) changes what the second aggregate and the class-level default
observe. -/
theorem C8_counterexample :
    cfgRun1.2.proxiesI.use_from = cfgRun2.2.proxiesI.use_from ∧
    getStrs cfgHeap cfgRun2.2.proxiesI.use_from = ["NCDC"] ∧
    getStrs cfgMutHeap cfgRun2.2.proxiesI.use_from = ["NCDC", "pages"] ∧
    getStrs cfgMutHeap classR.use_from = ["NCDC", "pages"] := by
  decide

/-- C8 (amended): composing the full Root Configuration twice with two
zero-argument constructions under the same class-level defaults produces two
aggregates whose fields are pairwise equal in value for every group and every
field; full independence, however, fails for the container fields rebound
without a copy (see the counterexample). -/
theorem C8_double_composition_equal_values :
    cfgRun1.2.wrapperI = cfgRun2.2.wrapperI ∧
    cfgRun1.2.coreI = cfgRun2.2.coreI ∧
    getStrs cfgHeap cfgRun1.2.proxiesI.use_from =
      getStrs cfgHeap cfgRun2.2.proxiesI.use_from ∧
    cfgRun1.2.proxiesI.proxy_frac = cfgRun2.2.proxiesI.proxy_frac ∧
    cfgRun1.2.proxiesI.seed = cfgRun2.2.proxiesI.seed ∧
    cfgRun1.2.proxiesI.pages.datadir_proxy =
      cfgRun2.2.proxiesI.pages.datadir_proxy ∧
    cfgRun1.2.proxiesI.pages.datafile_proxy =
      cfgRun2.2.proxiesI.pages.datafile_proxy ∧
    cfgRun1.2.proxiesI.pages.metafile_proxy =
      cfgRun2.2.proxiesI.pages.metafile_proxy ∧
    cfgRun1.2.proxiesI.pages.dataformat_proxy =
      cfgRun2.2.proxiesI.pages.dataformat_proxy ∧
    cfgRun1.2.proxiesI.pages.proxy_timeseries_kind =
      cfgRun2.2.proxiesI.pages.proxy_timeseries_kind ∧
    getStrs cfgHeap cfgRun1.2.proxiesI.pages.regions =
      getStrs cfgHeap cfgRun2.2.proxiesI.pages.regions ∧
    getNums cfgHeap cfgRun1.2.proxiesI.pages.proxy_resolution =
      getNums cfgHeap cfgRun2.2.proxiesI.pages.proxy_resolution ∧
    getStrs cfgHeap cfgRun1.2.proxiesI.pages.proxy_order =
      getStrs cfgHeap cfgRun2.2.proxiesI.pages.proxy_order ∧
    getAssim2 cfgHeap cfgRun1.2.proxiesI.pages.proxy_assim2 =
      getAssim2 cfgHeap cfgRun2.2.proxiesI.pages.proxy_assim2 ∧
    getStrs cfgHeap cfgRun1.2.proxiesI.pages.proxy_blacklist =
      getStrs cfgHeap cfgRun2.2.proxiesI.pages.proxy_blacklist ∧
    getMapping cfgHeap cfgRun1.2.proxiesI.pages.proxy_type_mapping =
      getMapping cfgHeap cfgRun2.2.proxiesI.pages.proxy_type_mapping ∧
    getFilters cfgHeap cfgRun1.2.proxiesI.pages.simple_filters =
      getFilters cfgHeap cfgRun2.2.proxiesI.pages.simple_filters ∧
    cfgRun1.2.proxiesI.ncdc.datadir_proxy =
      cfgRun2.2.proxiesI.ncdc.datadir_proxy ∧
    cfgRun1.2.proxiesI.ncdc.datafile_proxy =
      cfgRun2.2.proxiesI.ncdc.datafile_proxy ∧
    cfgRun1.2.proxiesI.ncdc.metafile_proxy =
      cfgRun2.2.proxiesI.ncdc.metafile_proxy ∧
    cfgRun1.2.proxiesI.ncdc.dataformat_proxy =
      cfgRun2.2.proxiesI.ncdc.dataformat_proxy ∧
    cfgRun1.2.proxiesI.ncdc.proxy_timeseries_kind =
      cfgRun2.2.proxiesI.ncdc.proxy_timeseries_kind ∧
    getStrs cfgHeap cfgRun1.2.proxiesI.ncdc.regions =
      getStrs cfgHeap cfgRun2.2.proxiesI.ncdc.regions ∧
    getNums cfgHeap cfgRun1.2.proxiesI.ncdc.proxy_resolution =
      getNums cfgHeap cfgRun2.2.proxiesI.ncdc.proxy_resolution ∧
    getStrs cfgHeap cfgRun1.2.proxiesI.ncdc.proxy_order =
      getStrs cfgHeap cfgRun2.2.proxiesI.ncdc.proxy_order ∧
    getAssim2 cfgHeap cfgRun1.2.proxiesI.ncdc.proxy_assim2 =
      getAssim2 cfgHeap cfgRun2.2.proxiesI.ncdc.proxy_assim2 ∧
    getStrs cfgHeap cfgRun1.2.proxiesI.ncdc.database_filter =
      getStrs cfgHeap cfgRun2.2.proxiesI.ncdc.database_filter ∧
    getStrs cfgHeap cfgRun1.2.proxiesI.ncdc.proxy_blacklist =
      getStrs cfgHeap cfgRun2.2.proxiesI.ncdc.proxy_blacklist ∧
    getMapping cfgHeap cfgRun1.2.proxiesI.ncdc.proxy_type_mapping =
      getMapping cfgHeap cfgRun2.2.proxiesI.ncdc.proxy_type_mapping ∧
    getFilters cfgHeap cfgRun1.2.proxiesI.ncdc.simple_filters =
      getFilters cfgHeap cfgRun2.2.proxiesI.ncdc.simple_filters ∧
    getDictSS cfgHeap cfgRun1.2.psmI.use_psm =
      getDictSS cfgHeap cfgRun2.2.psmI.use_psm ∧
    cfgRun1.2.psmI.linear = cfgRun2.2.psmI.linear ∧
    cfgRun1.2.psmI.linear_TorP = cfgRun2.2.psmI.linear_TorP ∧
    cfgRun1.2.psmI.bilinear = cfgRun2.2.psmI.bilinear ∧
    cfgRun1.2.psmI.h_interp = cfgRun2.2.psmI.h_interp ∧
    cfgRun1.2.priorI.prior_source = cfgRun2.2.priorI.prior_source ∧
    cfgRun1.2.priorI.datafile_prior = cfgRun2.2.priorI.datafile_prior ∧
    cfgRun1.2.priorI.dataformat_prior = cfgRun2.2.priorI.dataformat_prior ∧
    getStrs cfgHeap cfgRun1.2.priorI.state_variables =
      getStrs cfgHeap cfgRun2.2.priorI.state_variables ∧
    getStrs cfgHeap cfgRun1.2.priorI.psm_required_variables =
      getStrs cfgHeap cfgRun2.2.priorI.psm_required_variables ∧
    cfgRun1.2.priorI.detrend = cfgRun2.2.priorI.detrend ∧
    cfgRun1.2.priorI.state_kind = cfgRun2.2.priorI.state_kind ∧
    cfgRun1.2.priorI.seed = cfgRun2.2.priorI.seed ∧
    cfgRun1.2.priorI.datadir_prior = cfgRun2.2.priorI.datadir_prior := by
  refine ⟨?_, ?_, ?_, ?_, ?_, ?_, ?_, ?_, ?_, ?_, ?_, ?_, ?_, ?_, ?_, ?_,
    ?_, ?_, ?_, ?_, ?_, ?_, ?_, ?_, ?_, ?_, ?_, ?_, ?_, ?_, ?_, ?_, ?_, ?_,
    ?_, ?_, ?_, ?_, ?_, ?_, ?_, ?_, ?_, ?_⟩ <;> decide

/-- C9: resolving `core` without a `curr_iter` argument sets `curr_iter` to
the first element of the class-level `wrapper.iter_range`, which is 0 under
the shipped defaults; a non-null `curr_iter` argument is carried as given. -/
theorem C9_curr_iter_default (w : wrapperDefaults) (d : coreDefaults)
    (i : Int) :
    (coreInit w d Option.none).curr_iter = w.iter_range.1 ∧
    (coreInit w d (some i)).curr_iter = i ∧
    (coreInit wrapperShipped coreShipped Option.none).curr_iter = 0 :=
  ⟨rfl, rfl, rfl⟩

/-- C10: the resolver of the dual-variable calibration variant never assigns
the inherited `pre_calib_datafile` slot, so the resolved instance reads the
class-level value of `_linear`, the null sentinel under the shipped defaults,
even though `pre_calib_datafile_T` and `pre_calib_datafile_P` both resolve to
derived paths. -/
theorem C10_torp_precalib_inherited (cd : coreDefaults)
    (pD : proxiesDefaults) (nD : ncdcDefaults) (linD : linearDefaults)
    (tD : torpDefaults) :
    (torpInit cd pD nD linD tD).pre_calib_datafile = linD.pre_calib_datafile ∧
    (torpInit coreShipped proxiesShipped ncdcShipped linearShipped
        torpShipped).pre_calib_datafile = Option.none ∧
    (torpInit coreShipped proxiesShipped ncdcShipped linearShipped
        torpShipped).pre_calib_datafile_T =
      "/home/disk/kalman3/rtardif/LMR/PSM/PSMs_NCDC_v0.1.0_GISTEMP.pckl" ∧
    (torpInit coreShipped proxiesShipped ncdcShipped linearShipped
        torpShipped).pre_calib_datafile_P =
      "/home/disk/kalman3/rtardif/LMR/PSM/PSMs_NCDC_v0.1.0_GPCC.pckl" :=
  ⟨rfl, rfl, rfl, rfl⟩

end LMRConfig
